import Mathlib

/-! Shallow embedding of `cfb_checker.py`, a command-line college-football
team checker.  Python dictionaries coming from JSON are embedded as
structures of `Option` fields (a missing key is `none`); every
`dict.get(k, d)` in the source becomes `(·.k).getD d`.  Chained accesses
through defaulted empty dicts are flattened
into a single `Option` field, which is observationally the same.
Console output is embedded as a `List String` of printed lines, and
the effects of `main` as a trace of output and fetch actions; the network
results themselves are parameters of the trace, since the HTTP client is
an external collaborator.
-/

namespace CFB

/-- Team ID mapping for common teams (`TEAM_IDS`, source lines 16-79).
Embedded as an association list to keep the insertion order of the source,
which the first-15 sample of the help message depends on; all keys are
distinct, so lookup agrees with the Python dict. -/
def TEAM_IDS : List (String × String) :=
  [("navy", "2426"),
   ("air force", "2005"),
   ("army", "349"),
   ("michigan", "130"),
   ("ohio state", "194"),
   ("alabama", "333"),
   ("georgia", "61"),
   ("clemson", "228"),
   ("notre dame", "87"),
   ("usc", "30"),
   ("texas", "251"),
   ("oklahoma", "201"),
   ("penn state", "213"),
   ("florida", "57"),
   ("lsu", "99"),
   ("oregon", "2483"),
   ("washington", "264"),
   ("miami", "2390"),
   ("florida state", "52"),
   ("tennessee", "2633"),
   ("auburn", "2"),
   ("wisconsin", "275"),
   ("texas a&m", "245"),
   ("stanford", "24"),
   ("ucla", "26"),
   ("texas tech", "2641"),
   ("ole miss", "145"),
   ("mississippi state", "344"),
   ("arkansas", "8"),
   ("kentucky", "96"),
   ("south carolina", "2579"),
   ("vanderbilt", "238"),
   ("missouri", "142"),
   ("kansas", "2305"),
   ("kansas state", "2306"),
   ("iowa state", "66"),
   ("baylor", "239"),
   ("tcu", "2628"),
   ("oklahoma state", "197"),
   ("west virginia", "277"),
   ("utah", "254"),
   ("colorado", "38"),
   ("arizona", "12"),
   ("arizona state", "9"),
   ("cal", "25"),
   ("boston college", "103"),
   ("syracuse", "183"),
   ("pitt", "221"),
   ("virginia", "258"),
   ("virginia tech", "259"),
   ("nc state", "152"),
   ("north carolina", "153"),
   ("duke", "150"),
   ("wake forest", "154"),
   ("louisville", "97"),
   ("houston", "248"),
   ("ucf", "2116"),
   ("cincinnati", "2132"),
   ("byu", "252"),
   ("smu", "2567"),
   ("memphis", "235"),
   ("tulane", "2655")]

/-- Python `str.lower()` on the query string: per-character
lower-casing (`Char.toLower` is the ASCII case map, which covers every
key of the table and every case variant the program distinguishes). -/
def py_lower (s : String) : String :=
  String.mk (s.data.map Char.toLower)

/-- Embeds `get_team_id` (source lines 82-85): lower-case the query and look it
up in `TEAM_IDS`; `dict.get` with no default returns `None` on a miss. -/
def get_team_id (team_name : String) : Option String :=
  TEAM_IDS.lookup (py_lower team_name)

/-- A raw JSON score value as it reaches the score-coercion code: either
a bare numeric value (JSON number or numeric string, represented by its
numeric value, since both pass through `int(float(x))` identically), or a
wrapped value-object `\x7b"value": v\x7d`. -/
inductive ScoreRaw where
  | val (v : Rat)
  | obj (value : Rat)
deriving DecidableEq

/-- Python `int(float(v))` on a numeric value `v`: truncation toward
zero (exact for the rational values representable here). -/
def py_trunc (v : Rat) : Int :=
  Int.tdiv v.num (Int.ofNat v.den)

/-- The unwrapping step `raw.get(value, raw) if isinstance(raw, dict)
else raw` (source lines 239-240). -/
def score_value : ScoreRaw → Rat
  | .val v => v
  | .obj v => v

/-- Full score coercion of one competitor (source lines 236-244):
`comp.get(score, 0)` defaults a missing score to `0`, then unwrap,
then `int(float(·))`. -/
def coerce_score (score : Option ScoreRaw) : Int :=
  py_trunc (score_value (score.getD (.val 0)))

/-- One competitor of a competition.  `team_id` and `team_displayName`
flatten `comp.get(team, ...).get(...)`; `curatedRank_current` flattens
`comp.get(curatedRank, ...).get(current, 0)` before its default is
applied. -/
structure Competitor where
  homeAway : Option String
  team_id : Option String
  team_displayName : Option String
  score : Option ScoreRaw
  curatedRank_current : Option Int
deriving DecidableEq

/-- A venue; `city`/`state` flatten `venue.get(address, ...).get(...)`.
The source guards `if venue:` on the defaulted `\x7b\x7d`, so an absent or
empty venue dict is `none` here. -/
structure Venue where
  fullName : Option String
  city : Option String
  state : Option String
deriving DecidableEq

/-- One broadcast entry with its `names` list. -/
structure Broadcast where
  names : Option (List String)
deriving DecidableEq

/-- One competition.  `status_type_name` flattens
`competition.get(status, ...).get(type, ...).get(name, ...)` before
the empty-string default is applied. -/
structure Competition where
  status_type_name : Option String
  competitors : Option (List Competitor)
  venue : Option Venue
  broadcasts : Option (List Broadcast)
deriving DecidableEq

/-- One schedule event. -/
structure Event where
  date : Option String
  competitions : Option (List Competition)
deriving DecidableEq

/-- A schedule document (`events` key). -/
structure ScheduleData where
  events : Option (List Event)
deriving DecidableEq

/-- One entry of `team.record.items`. -/
structure RecordItem where
  type : Option String
  name : Option String
  summary : Option String
deriving DecidableEq

/-- The `team` sub-dict of a profile document; `record_items` flattens
`team.get(record, ...).get(items, [])` before the `[]` default. -/
structure Team where
  displayName : Option String
  rank : Option Int
  id : Option String
  record_items : Option (List RecordItem)
deriving DecidableEq

/-- The defaulted empty dict `team_data.get(team, ...)`. -/
def empty_team : Team :=
  { displayName := none, rank := none, id := none, record_items := none }

/-- A profile document. -/
structure TeamData where
  team : Option Team
deriving DecidableEq

/-- The loop body of `find_next_game` (source lines 129-141): skip
events with no competitions, read the status name of the first
competition (defaults collapsing to the empty string), and return the first event whose status
is neither `STATUS_FINAL` nor `STATUS_POSTPONED`. -/
def find_next_game_events : List Event → Option Event
  | [] => none
  | e :: rest =>
    match e.competitions.getD [] with
    | [] => find_next_game_events rest
    | c :: _ =>
      let status_type := c.status_type_name.getD ("")
      if status_type = "STATUS_FINAL" ∨ status_type = "STATUS_POSTPONED" then
        find_next_game_events rest
      else
        some e

/-- Embeds `find_next_game` (source lines 122-142): `None` schedule data short
circuits to `None`; otherwise scan `schedule_data.get(events, [])`. -/
def find_next_game : Option ScheduleData → Option Event
  | none => none
  | some sd => find_next_game_events (sd.events.getD [])

/-- The effective competition status of an event, as the scanning code
observes it: the `status.type.name` of the first competition with the
chain of defaults of the source (empty string when anything is missing,
and also an empty string for an event with no competitions, which the scan skips). -/
def event_status (e : Event) : String :=
  match e.competitions.getD [] with
  | [] => ""
  | c :: _ => c.status_type_name.getD ("")

/-- The rank-formatting branch the source repeats inline for the team
header (lines 166-169), the completed-game opponent (lines 254-257) and
the next-game home team (lines 322-325): `#r NAME` for `0 < r ≤ 25`,
else `(UR) NAME`. -/
def rank_display (rank : Int) (name : String) : String :=
  if rank > 0 ∧ rank ≤ 25 then s!"#{rank} {name}" else s!"(UR) {name}"

/-- The next-game away-team branch (lines 327-330), whose unranked arm
reads `UR NAME` with no parentheses. -/
def rank_display_away (rank : Int) (name : String) : String :=
  if rank > 0 ∧ rank ≤ 25 then s!"#{rank} {name}" else s!"UR {name}"

/-- The preference test of the record loop (line 180):
`item.get(type) == total or item.get(name) == overall`. -/
def record_pref (item : RecordItem) : Bool :=
  item.type == some ("total") || item.name == some ("overall")

/-- The `for ... break / else` scan over `record_items` (lines 179-191):
the summary of the first preferred item, or `none` when the loop runs
out (the dead `wins`/`losses` assignments inside the loop bind locals
that are never read and are omitted). -/
def record_loop : List RecordItem → Option String
  | [] => none
  | item :: rest =>
    if record_pref item then some (item.summary.getD ("N/A"))
    else record_loop rest

/-- The whole current-record selection (lines 176-197): `N/A` for an
empty list, else the result of the loop, else the summary of the first
item. -/
def current_record (record_items : List RecordItem) : String :=
  match record_items with
  | [] => "N/A"
  | first :: _ =>
    match record_loop record_items with
    | some s => s
    | none => first.summary.getD ("N/A")

/-- Two-digit zero-padded rendering of a date component. -/
def pad2 (n : Nat) : String :=
  if n < 10 then ("0" ++ toString n) else toString n

/-- The `%m/%d/%y` game-date rendering (lines 266-273):
`datetime.fromisoformat` on the `Z`-normalized timestamp followed by
`strftime` with `%m/%d/%y`, and `Unknown` on an empty or unparsable
string.
The model reads the `YYYY-MM-DD` prefix (which is all strftime uses
here) and does not re-validate the time-of-day tail. -/
def format_game_date (date_str : String) : String :=
  if date_str = "" then "Unknown"
  else
    match date_str.data with
    | y1 :: y2 :: y3 :: y4 :: h1 :: m1 :: m2 :: h2 :: d1 :: d2 :: _ =>
      if y1.isDigit ∧ y2.isDigit ∧ y3.isDigit ∧ y4.isDigit ∧
         h1 = Char.ofNat 45 ∧ m1.isDigit ∧ m2.isDigit ∧
         h2 = Char.ofNat 45 ∧ d1.isDigit ∧ d2.isDigit then
        let y := ((y1.toNat - 48) * 1000 + (y2.toNat - 48) * 100 +
                  (y3.toNat - 48) * 10 + (y4.toNat - 48))
        let m := (m1.toNat - 48) * 10 + (m2.toNat - 48)
        let d := (d1.toNat - 48) * 10 + (d2.toNat - 48)
        if 1 ≤ m ∧ m ≤ 12 ∧ 1 ≤ d ∧ d ≤ 31 then
          pad2 m ++ ("/") ++ pad2 d ++ ("/") ++ pad2 (y % 100)
        else "Unknown"
      else "Unknown"
    | _ => "Unknown"

/-- One extracted completed game.  The printed dict stores only the
formatted `score` string; `our_score`/`opp_score` additionally capture
the coerced integers the string and the W/L result are built from. -/
structure GameResult where
  date : String
  result : String
  our_score : Int
  opp_score : Int
  score : String
  opponent : String
  location : String
deriving DecidableEq

/-- The competitor-splitting loop of the completed-games scan (lines
223-232), restricted to the `our_team_info`/`opponent_info` pair it
actually uses (the `home_team`/`away_team` locals assigned there are
dead in this loop): last competitor matching `our_team_id` wins the
first slot, last non-matching one the second. -/
def side_step (our_team_id : Option String)
    (acc : Option Competitor × Option Competitor) (comp : Competitor) :
    Option Competitor × Option Competitor :=
  if comp.team_id = our_team_id then (some comp, acc.2) else (acc.1, some comp)

/-- Processing of one event by the season-results loop (lines 204-281):
events with no competitions are skipped, only `STATUS_FINAL` first
competitions count, both sides must be identified, then scores are
coerced, W/L decided by `>`, and the display fields built. -/
def process_final_event (our_team_id : Option String) (e : Event) :
    Option GameResult :=
  match e.competitions.getD [] with
  | [] => none
  | competition :: _ =>
    let status_type := competition.status_type_name.getD ("")
    if status_type = "STATUS_FINAL" then
      let sides := (competition.competitors.getD []).foldl (side_step our_team_id) (none, none)
      match sides.1, sides.2 with
      | some our_team_info, some opponent_info =>
        let our_score := coerce_score our_team_info.score
        let opp_score := coerce_score opponent_info.score
        let opp_name := opponent_info.team_displayName.getD ("Unknown")
        let opp_rank := opponent_info.curatedRank_current.getD 0
        let location := if our_team_info.homeAway = some ("home") then ("vs") else ("@")
        let opp_display := rank_display opp_rank opp_name
        let result := if our_score > opp_score then ("W") else ("L")
        some { date := format_game_date (e.date.getD ("")),
               result := result,
               our_score := our_score,
               opp_score := opp_score,
               score := toString our_score ++ ("-") ++ toString opp_score,
               opponent := opp_display,
               location := location }
      | _, _ => none
    else none

/-- The season-results extraction over the whole event list: each event
contributes at most one `GameResult`, in document order. -/
def extract_completed_games (our_team_id : Option String) (events : List Event) :
    List GameResult :=
  events.filterMap (process_final_event our_team_id)

/-- The 70-character separator of `=` signs. -/
def sep70 : String := String.mk (List.replicate 70 (Char.ofNat 61))

/-- The 70-character separator of `-` signs. -/
def dash70 : String := String.mk (List.replicate 70 (Char.ofNat 45))

/-- A single apostrophe, used by several printed messages. -/
def squote : String := String.mk [Char.ofNat 39]

/-- Python `f"{s:>7}"`: right-align to width 7 with spaces. -/
def pad_left7 (s : String) : String :=
  String.mk (List.replicate (7 - s.length) (Char.ofNat 32)) ++ s

/-- One printed season-results row (line 287). -/
def season_game_line (g : GameResult) : String :=
  let d := g.date
  let r := g.result
  let sc := pad_left7 g.score
  let loc := g.location
  let opp := g.opponent
  s!"   {d}  {r}  {sc}  {loc} {opp}"

/-- The season-results block (lines 200-289): skipped entirely when the
schedule document is absent, a no-games line when no event yields a
result, otherwise a header and one row per completed game. -/
def season_results_lines (team : Team) :
    Option ScheduleData → List String
  | none => []
  | some sd =>
    let completed_games := extract_completed_games team.id (sd.events.getD [])
    if completed_games.isEmpty then ["\nüìÖ No games completed yet this season"]
    else ["\nüìÖ SEASON RESULTS", dash70] ++ completed_games.map season_game_line

/-- The home/away split of the next-game section (lines 308-312): last
`homeAway == home` competitor wins the home slot, last other one the
away slot. -/
def next_game_home_away (competitors : List Competitor) :
    Option Competitor × Option Competitor :=
  competitors.foldl
    (fun acc comp =>
      if comp.homeAway = some ("home") then (some comp, acc.2) else (acc.1, some comp))
    (none, none)

/-- The next-game block body (lines 294-364).  `fmt_dt` stands for
`format_datetime`, whose output depends on the process-local timezone
(`astimezone`) and is therefore a parameter of the pure embedding. -/
def next_game_lines (fmt_dt : String → String) (team : Team) (next_game : Event) :
    List String :=
  let head := ["\nüèà NEXT GAME", dash70]
  match next_game.competitions.getD [] with
  | [] => head
  | competition :: _ =>
    let competitors := competition.competitors.getD []
    let ha := next_game_home_away competitors
    let matchup :=
      match ha.1, ha.2 with
      | some home_team, some away_team =>
        let home_name := home_team.team_displayName.getD ("Unknown")
        let away_name := away_team.team_displayName.getD ("Unknown")
        let home_rank := home_team.curatedRank_current.getD 0
        let away_rank := away_team.curatedRank_current.getD 0
        let home_display := rank_display home_rank home_name
        let away_display := rank_display_away away_rank away_name
        if home_team.team_id = team.id then
          [s!"   Opponent: {away_display}", "   Location: Home"]
        else
          [s!"   Opponent: {home_display}", s!"   Location: Away @ {home_name}"]
      | _, _ => []
    let date_lines :=
      let date_str := next_game.date.getD ("")
      if date_str = "" then []
      else
        let fd := fmt_dt date_str
        [s!"   Date/Time: {fd}"]
    let venue_lines :=
      match competition.venue with
      | none => []
      | some venue =>
        let venue_name := venue.fullName.getD ("")
        let city := venue.city.getD ("")
        let state := venue.state.getD ("")
        if venue_name = "" then []
        else
          [s!"   Venue: {venue_name}"] ++
            (if city ≠ "" ∧ state ≠ "" then [s!"          {city}, {state}"] else [])
    let tv_lines :=
      let broadcasts := competition.broadcasts.getD []
      if broadcasts.isEmpty then []
      else
        let networks := broadcasts.foldl (fun ns b => ns ++ b.names.getD []) []
        if networks.isEmpty then []
        else
          let joined := String.intercalate (", ") networks
          [s!"\nüì∫ TV: {joined}"]
    head ++ matchup ++ date_lines ++ venue_lines ++ tv_lines

/-- Embeds `display_team_info` (lines 155-370) as the list of printed lines.
A missing profile document prints the could-not-retrieve line and
returns at once (lines 157-159); otherwise header, record line, season
results, next game (or the season-over message), and the footer. -/
def display_team_info (fmt_dt : String → String)
    (team_data : Option TeamData) (schedule_data : Option ScheduleData) :
    List String :=
  match team_data with
  | none => ["‚ùå Could not retrieve team information"]
  | some td =>
    let team := td.team.getD empty_team
    let team_name := team.displayName.getD ("Unknown Team")
    let rank := team.rank.getD 0
    let team_display := rank_display rank team_name
    let header := ["\n" ++ sep70, s!"  {team_display}", sep70]
    let record_items := team.record_items.getD []
    let rec_summary := current_record record_items
    let record_line := [s!"\nüìä Current Record: {rec_summary}"]
    let season := season_results_lines team schedule_data
    let next_lines :=
      match find_next_game schedule_data with
      | some ng => next_game_lines fmt_dt team ng
      | none =>
        ["\nüèà No upcoming games scheduled",
         "   The season may have ended or the schedule is not yet available."]
    header ++ record_line ++ season ++ next_lines ++ ["\n" ++ sep70 ++ "\n"]

/-- Python `str.title()` over ASCII: an alphabetic character is
upper-cased after a non-alphabetic one and lower-cased after an
alphabetic one. -/
def py_title_chars : Bool → List Char → List Char
  | _, [] => []
  | prev_alpha, c :: cs =>
    let c2 := if c.isAlpha then (if prev_alpha then c.toLower else c.toUpper) else c
    c2 :: py_title_chars c.isAlpha cs

/-- Python `str.title()`. -/
def py_title (s : String) : String :=
  String.mk (py_title_chars false s.data)

/-- The `range(0, len, 3)` slicing of the example list (lines 397-399). -/
def chunks3 : List String → List (List String)
  | [] => []
  | [a] => [[a]]
  | [a, b] => [[a, b]]
  | a :: b :: c :: rest => [a, b, c] :: chunks3 rest

/-- The not-found help output of `main` (lines 393-401): the first 15
table keys, title-cased three per line, then the `... and N more` count
computed as `len(TEAM_IDS) - 15`. -/
def not_found_lines (team_name : String) : List String :=
  let examples := (TEAM_IDS.map Prod.fst).take 15
  let example_lines :=
    (chunks3 examples).map
      (fun line => ("   ") ++ String.intercalate (", ") (line.map py_title))
  let more := TEAM_IDS.length - 15
  [("\n‚ùå Team ") ++ squote ++ team_name ++ squote ++ (" not found in database."),
   "\nSupported teams include:"] ++ example_lines ++
  [s!"   ... and {more} more", "\nTry one of these team names."]

/-- Python `str.strip()` on the interactive input (line 381): drop
whitespace characters from both ends (ASCII whitespace, which covers
the empty and whitespace-only lines the program distinguishes). -/
def py_strip (s : String) : String :=
  String.mk
    (((s.data.dropWhile Char.isWhitespace).reverse.dropWhile Char.isWhitespace).reverse)

/-- An observable step of `main`: a printed line or one of the two HTTP
fetches (whose internal error prints belong to the external API-client
boundary). -/
inductive Action where
  | out (s : String)
  | fetch_team_data (id : String)
  | fetch_schedule (id : String)
deriving DecidableEq

/-- Embeds `main` (lines 373-412) as an action trace.  `argv_tail` is
`sys.argv[1:]`, `input_line` the interactive answer used when no
arguments are given, and the two fetch results are parameters standing
for the network responses consumed by `display_team_info`. -/
def main_trace (fmt_dt : String → String) (argv_tail : List String)
    (input_line : String) (team_data : Option TeamData)
    (schedule_data : Option ScheduleData) : List Action :=
  let banner := Action.out ("\nüèà College Football Team Checker üèà\n")
  let team_name :=
    if argv_tail ≠ [] then String.intercalate (" ") argv_tail
    else py_strip input_line
  if team_name = "" then
    [banner, Action.out ("No team name provided. Exiting.")]
  else
    let searching := Action.out (("\nSearching for ") ++ squote ++ team_name ++ squote ++ ("..."))
    match get_team_id team_name with
    | none => [banner, searching] ++ (not_found_lines team_name).map Action.out
    | some team_id =>
      [banner, searching,
       Action.out (("‚úì Found team (ID: ") ++ team_id ++ (")")),
       Action.out ("Fetching team information...")] ++
      [Action.fetch_team_data team_id, Action.fetch_schedule team_id] ++
      (display_team_info fmt_dt team_data schedule_data).map Action.out

/-! Sample documents used by concrete instances below. -/

/-- A competitor for the side the schedule was fetched for. -/
def sample_our (sc : Option ScoreRaw) : Competitor :=
  { homeAway := some ("home"), team_id := some ("1"),
    team_displayName := some ("Us"), score := sc, curatedRank_current := none }

/-- An opposing competitor. -/
def sample_opp (sc : Option ScoreRaw) : Competitor :=
  { homeAway := some ("away"), team_id := some ("2"),
    team_displayName := some ("Opp"), score := sc, curatedRank_current := none }

/-- A final event between `sample_our` and `sample_opp` with the given
raw scores. -/
def sample_final_event (our_sc opp_sc : Option ScoreRaw) : Event :=
  { date := none,
    competitions := some
      [{ status_type_name := some ("STATUS_FINAL"),
         competitors := some [sample_our our_sc, sample_opp opp_sc],
         venue := none, broadcasts := none }] }

/-- A scheduled (not yet played) event. -/
def sample_next_event : Event :=
  { date := none,
    competitions := some
      [{ status_type_name := some ("STATUS_SCHEDULED"),
         competitors := some [sample_our none, sample_opp none],
         venue := none, broadcasts := none }] }

/-- The C4 test event: own score bare `21`, opponent score the wrapped
object `\x7b"value": "14.0"\x7d` (numeric value `14`). -/
def c4_event : Event :=
  sample_final_event (some (.val 21)) (some (.obj 14))

/-- The game result the C4 test event extracts to. -/
def c4_result : GameResult :=
  { date := "Unknown", result := "W", our_score := 21, opp_score := 14,
    score := "21-14", opponent := "(UR) Opp", location := "vs" }

/-- A schedule with one final game and one scheduled game. -/
def c1_sched : ScheduleData :=
  { events := some [sample_final_event (some (.val 28)) (some (.val 24)),
                    sample_next_event] }

end CFB

namespace CFB

/-! Helper lemmas shared by the claim theorems. -/

/-- The record loop returns the summary of the first preferred item. -/
theorem record_loop_eq_find (items : List RecordItem) :
    record_loop items =
      (items.find? record_pref).map (fun item => item.summary.getD ("N/A")) := by
  induction items with
  | nil => rfl
  | cons item rest ih =>
    cases hp : record_pref item with
    | true => simp [record_loop, List.find?, hp]
    | false => simp [record_loop, List.find?, hp, ih]

/-- An event that yields a game result has a `STATUS_FINAL` first
competition. -/
theorem process_final_event_status {our_team_id : Option String} {e : Event}
    {g : GameResult} (h : process_final_event our_team_id e = some g) :
    event_status e = "STATUS_FINAL" := by
  unfold process_final_event at h
  unfold event_status
  split at h
  · next heq => exact absurd h (by simp)
  · next c cs heq =>
    by_cases hs : c.status_type_name.getD ("") = "STATUS_FINAL"
    · exact hs
    · simp [hs] at h

end CFB

namespace CFB

/-- Claim C7: for every known team name, resolution is case-insensitive
exact match against the fixed table — any two case variants of a name
resolve to the same identifier, `Navy` and `navy` both resolve to
`2426`, and the table has at least 60 name-to-identifier pairs. -/
theorem c7_resolve_case_insensitive :
    (∀ s t : String, py_lower s = py_lower t → get_team_id s = get_team_id t) ∧
    get_team_id ("Navy") = some ("2426") ∧
    get_team_id ("navy") = some ("2426") ∧
    60 ≤ TEAM_IDS.length := by
  refine ⟨fun s t h => ?_, by decide, by decide, by decide⟩
  unfold get_team_id
  rw [h]

/-- Concrete instance of C7: `NAVY` and `navy` are case variants, so
they resolve alike. -/
theorem c7_witness :
    get_team_id ("NAVY") = get_team_id ("navy") :=
  c7_resolve_case_insensitive.1 ("NAVY") ("navy") (by decide)

/-- Claim C6: the rank-formatting rule renders `#r NAME` when
`1 ≤ r ≤ 25` and `(UR) NAME` otherwise (including `r = 0` and
`r = 30`), as used by the team header and completed-game opponent
displays; the next-game away-team branch alone renders an unranked team
as `UR NAME` with no parentheses, and the asymmetry is exact. -/
theorem c6_rank_formatting :
    (∀ (r : Int) (name : String),
      ((1 ≤ r ∧ r ≤ 25) →
        rank_display r name = s!"#{r} {name}" ∧
        rank_display_away r name = s!"#{r} {name}") ∧
      (¬(1 ≤ r ∧ r ≤ 25) →
        rank_display r name = s!"(UR) {name}" ∧
        rank_display_away r name = s!"UR {name}")) ∧
    rank_display 0 ("Team") = "(UR) Team" ∧
    rank_display 12 ("Team") = "#12 Team" ∧
    rank_display 30 ("Team") = "(UR) Team" ∧
    rank_display_away 30 ("Team") = "UR Team" := by
  refine ⟨fun r name => ⟨fun h => ?_, fun h => ?_⟩, by decide, by decide, by decide, by decide⟩
  · have hc : r > 0 ∧ r ≤ 25 := ⟨by omega, h.2⟩
    exact ⟨by rw [rank_display, if_pos hc], by rw [rank_display_away, if_pos hc]⟩
  · have hc : ¬(r > 0 ∧ r ≤ 25) := by omega
    exact ⟨by rw [rank_display, if_neg hc], by rw [rank_display_away, if_neg hc]⟩

/-- Concrete instance of C6: rank 18 is in the ranked band, rank 30 is
not, on both the symmetric and the away-team formatter. -/
theorem c6_witness :
    (rank_display 18 ("Team") = "#18 Team" ∧
     rank_display_away 18 ("Team") = "#18 Team") ∧
    (rank_display 30 ("Team") = "(UR) Team" ∧
     rank_display_away 30 ("Team") = "UR Team") :=
  ⟨(c6_rank_formatting.1 18 ("Team")).1 (by decide),
   (c6_rank_formatting.1 30 ("Team")).2 (by decide)⟩

/-- Claim C4: the score of a competitor is accepted either as a bare numeric
value or as a wrapped value-object, and coerced to an integer by
float-then-int truncation (a missing score defaults to `0`); in
particular an own bare `21` against an opponent wrapped `"14.0"` in a
final event with both sides identified extracts to the score pair
`(21, 14)` with result Win. -/
theorem c4_score_coercion :
    (∀ v : Rat,
      coerce_score (some (ScoreRaw.val v)) = py_trunc v ∧
      coerce_score (some (ScoreRaw.obj v)) = py_trunc v) ∧
    coerce_score none = 0 ∧
    process_final_event (some ("1")) c4_event = some c4_result := by
  refine ⟨fun v => ⟨rfl, rfl⟩, by decide, by decide⟩

/-- Claim C5: the Win/Loss letter of every extracted completed game is
decided by strict greater-than on the coerced scores — `W` exactly when
the own score exceeds the opponent score, `L` otherwise, so an
equal-score game is recorded as a Loss. -/
theorem c5_win_loss_strict_gt (our_team_id : Option String) (e : Event)
    (g : GameResult) (h : process_final_event our_team_id e = some g) :
    g.result = (if g.our_score > g.opp_score then ("W") else ("L")) ∧
    (g.our_score = g.opp_score → g.result = "L") := by
  unfold process_final_event at h
  split at h
  · exact absurd h (by simp)
  · next c cs heq =>
    by_cases hs : c.status_type_name.getD ("") = "STATUS_FINAL"
    · dsimp only at h
      rw [if_pos hs] at h
      split at h
      · rw [Option.some.injEq] at h
        subst h
        constructor
        · rfl
        · intro hteq
          dsimp only at hteq ⊢
          rw [if_neg (by omega)]
      · exact absurd h (by simp)
    · simp [hs] at h

/-- A tied final game between the two sample sides, 14 to 14. -/
def c5_tie_event : Event :=
  sample_final_event (some (.val 14)) (some (.val 14))

/-- The game result the tie event extracts to: recorded as a Loss. -/
def c5_tie_result : GameResult :=
  { date := "Unknown", result := "L", our_score := 14, opp_score := 14,
    score := "14-14", opponent := "(UR) Opp", location := "vs" }

/-- Concrete instance of C5: a 14-14 final game is recorded with result
`L`. -/
theorem c5_witness :
    c5_tie_result.result =
      (if c5_tie_result.our_score > c5_tie_result.opp_score then ("W") else ("L")) ∧
    (c5_tie_result.our_score = c5_tie_result.opp_score → c5_tie_result.result = "L") :=
  c5_win_loss_strict_gt (some ("1")) c5_tie_event c5_tie_result (by decide)

/-- Claim C9: the current-record line prefers the first record item
whose type is `total` or whose name is `overall`; with no such item it
falls back to the summary of the first record item, and an empty record list
yields `N/A`. -/
theorem c9_current_record_selection (items : List RecordItem) :
    (items = [] → current_record items = "N/A") ∧
    (∀ item, items.find? record_pref = some item →
      current_record items = item.summary.getD ("N/A")) ∧
    (items.find? record_pref = none →
      ∀ first rest, items = first :: rest →
        current_record items = first.summary.getD ("N/A")) := by
  refine ⟨fun h => by subst h; rfl, fun item hf => ?_, fun hf first rest hitems => ?_⟩
  · cases items with
    | nil => simp at hf
    | cons a l =>
      unfold current_record
      rw [record_loop_eq_find, hf]
      rfl
  · subst hitems
    unfold current_record
    rw [record_loop_eq_find, hf]
    rfl

/-- Concrete instance of C9: a conference item followed by a `total`
item selects the `total` summary. -/
theorem c9_witness :
    current_record
      [{ type := some ("vsconf"), name := some ("vs. Conf."), summary := some ("3-1") },
       { type := some ("total"), name := some ("overall"), summary := some ("7-2") }] =
      ("7-2") :=
  (c9_current_record_selection _).2.1
    { type := some ("total"), name := some ("overall"), summary := some ("7-2") }
    (by decide)

/-- Claim C10: with no command-line arguments and an empty or
whitespace-only interactive line, `main` prints the banner and the
no-team-name message and stops — the trace contains no fetch action (and
in particular ends before the search message of the lookup path). -/
theorem c10_empty_input_early_exit (fmt : String → String) (input_line : String)
    (team_data : Option TeamData) (schedule_data : Option ScheduleData)
    (h : py_strip input_line = "") :
    main_trace fmt [] input_line team_data schedule_data =
      [Action.out ("\nüèà College Football Team Checker üèà\n"),
       Action.out ("No team name provided. Exiting.")] ∧
    ∀ a ∈ main_trace fmt [] input_line team_data schedule_data,
      ∀ team_id, a ≠ Action.fetch_team_data team_id ∧ a ≠ Action.fetch_schedule team_id := by
  have hmain : main_trace fmt [] input_line team_data schedule_data =
      [Action.out ("\nüèà College Football Team Checker üèà\n"),
       Action.out ("No team name provided. Exiting.")] := by
    unfold main_trace
    simp [h]
  refine ⟨hmain, ?_⟩
  rw [hmain]
  intro a ha team_id
  rcases List.mem_cons.mp ha with rfl | ha
  · exact ⟨by simp, by simp⟩
  rcases List.mem_cons.mp ha with rfl | ha
  · exact ⟨by simp, by simp⟩
  · simp at ha

/-- Concrete instance of C10: a three-space interactive line strips to
empty and exits before any fetch. -/
theorem c10_witness :
    main_trace id [] ("   ") none none =
      [Action.out ("\nüèà College Football Team Checker üèà\n"),
       Action.out ("No team name provided. Exiting.")] :=
  (c10_empty_input_early_exit id ("   ") none none (by decide)).1

/-- Counterexample to claim C1 as stated: with the profile fetch failed
and a schedule in hand that holds one final game (a 28-24 win) and one
scheduled game, `display_team_info` prints only the could-not-retrieve
line — the season-results and next-game sections are not printed, so the
schedule is not processed. -/
theorem c1_counterexample :
    display_team_info (fun s => s) none (some c1_sched) =
      [("‚ùå Could not retrieve team information")] ∧
    extract_completed_games (some ("1")) (c1_sched.events.getD []) ≠ [] ∧
    find_next_game (some c1_sched) = some sample_next_event ∧
    ("\nüìÖ SEASON RESULTS") ∉ display_team_info (fun s => s) none (some c1_sched) ∧
    ("\nüèà NEXT GAME") ∉ display_team_info (fun s => s) none (some c1_sched) := by
  refine ⟨rfl, by decide, by decide, by decide, by decide⟩

/-- Claim C1 as amended: when the profile fetch returns Failure,
`display_team_info` prints the could-not-retrieve message and returns at
once, skipping the record, season-results and next-game sections no
matter what the schedule fetch returned; partial output happens only in
the other direction (profile present, schedule absent). -/
theorem c1_missing_profile_short_circuits (fmt_dt : String → String)
    (schedule_data : Option ScheduleData) :
    display_team_info fmt_dt none schedule_data =
      [("‚ùå Could not retrieve team information")] := rfl

/-- Claim C8: an unknown team name resolves to not-found, and the help
output then shows a sample of 15 supported names followed by an
`... and N more` line whose count is exactly `total_known - 15` (47 for
the 62-entry table), the table being larger than 15. -/
theorem c8_unknown_name_help_count (fmt : String → String) (input_line : String)
    (team_data : Option TeamData) (schedule_data : Option ScheduleData)
    (team_name : String) (hne : team_name ≠ "")
    (h : get_team_id team_name = none) :
    15 < TEAM_IDS.length ∧ TEAM_IDS.length - 15 = 47 ∧
    main_trace fmt [team_name] input_line team_data schedule_data =
      ([Action.out ("\nüèà College Football Team Checker üèà\n"),
        Action.out (("\nSearching for ") ++ squote ++ team_name ++ squote ++ ("..."))] ++
       (not_found_lines team_name).map Action.out) ∧
    not_found_lines team_name =
      [("\n‚ùå Team ") ++ squote ++ team_name ++ squote ++ (" not found in database."),
       "\nSupported teams include:",
       "   Navy, Air Force, Army",
       "   Michigan, Ohio State, Alabama",
       "   Georgia, Clemson, Notre Dame",
       "   Usc, Texas, Oklahoma",
       "   Penn State, Florida, Lsu",
       "   ... and 47 more",
       "\nTry one of these team names."] := by
  refine ⟨by decide, by decide, ?_, ?_⟩
  · unfold main_trace
    rw [if_pos (by simp : ([team_name] : List String) ≠ [])]
    rw [show String.intercalate (" ") [team_name] = team_name from rfl]
    rw [if_neg hne, h]
  · unfold not_found_lines
    rfl

/-- Concrete instance of C8: the unknown name `zzz` takes the help path,
whose count line reads 47. -/
theorem c8_witness :
    main_trace id [("zzz")] ("") none none =
      ([Action.out ("\nüèà College Football Team Checker üèà\n"),
        Action.out (("\nSearching for ") ++ squote ++ ("zzz") ++ squote ++ ("..."))] ++
       (not_found_lines ("zzz")).map Action.out) ∧
    not_found_lines ("zzz") =
      [("\n‚ùå Team ") ++ squote ++ ("zzz") ++ squote ++ (" not found in database."),
       "\nSupported teams include:",
       "   Navy, Air Force, Army",
       "   Michigan, Ohio State, Alabama",
       "   Georgia, Clemson, Notre Dame",
       "   Usc, Texas, Oklahoma",
       "   Penn State, Florida, Lsu",
       "   ... and 47 more",
       "\nTry one of these team names."] :=
  ⟨(c8_unknown_name_help_count id ("") none none ("zzz") (by decide) (by decide)).2.2.1,
   (c8_unknown_name_help_count id ("") none none ("zzz") (by decide) (by decide)).2.2.2⟩

/-- The next-game eligibility test of an event, as a Boolean: status
neither `STATUS_FINAL` nor `STATUS_POSTPONED`. -/
def next_game_pred (e : Event) : Bool :=
  !(event_status e == ("STATUS_FINAL") || event_status e == ("STATUS_POSTPONED"))

/-- Claim C2: over events that each carry a competition, `find_next_game`
returns exactly the first event in document order whose competition
status is neither Final nor Postponed (`List.find?`), and in particular
returns none when the status of every event is Final or Postponed. -/
theorem c2_find_next_game_first_unplayed (events : List Event)
    (h : ∀ e ∈ events, e.competitions.getD [] ≠ []) :
    find_next_game (some { events := some events }) = events.find? next_game_pred ∧
    ((∀ e ∈ events, event_status e = "STATUS_FINAL" ∨ event_status e = "STATUS_POSTPONED") →
      find_next_game (some { events := some events }) = none) := by
  have key : ∀ l : List Event, (∀ e ∈ l, e.competitions.getD [] ≠ []) →
      find_next_game_events l = l.find? next_game_pred := by
    intro l
    induction l with
    | nil => intro _; rfl
    | cons e rest ih =>
      intro hl
      have he := hl e (List.mem_cons_self e rest)
      have hrec := ih (fun x hx => hl x (List.mem_cons_of_mem e hx))
      cases hc : e.competitions.getD [] with
      | nil => exact absurd hc he
      | cons c cs =>
        have hst : event_status e = c.status_type_name.getD ("") := by
          unfold event_status; rw [hc]
        unfold find_next_game_events
        rw [hc]
        dsimp only
        by_cases hfp : c.status_type_name.getD ("") = "STATUS_FINAL" ∨
            c.status_type_name.getD ("") = "STATUS_POSTPONED"
        · have hp : next_game_pred e = false := by
            unfold next_game_pred
            rw [hst]
            rcases hfp with h1 | h1 <;> simp [h1]
          rw [if_pos hfp, hrec, List.find?_cons, hp]
        · have hp : next_game_pred e = true := by
            unfold next_game_pred
            rw [hst]
            push_neg at hfp
            simp [hfp.1, hfp.2]
          rw [if_neg hfp, List.find?_cons, hp]
  refine ⟨key events h, fun hall => ?_⟩
  have : find_next_game (some { events := some events }) = find_next_game_events events := rfl
  rw [this, key events h]
  apply List.find?_eq_none.mpr
  intro e hee
  have hse := hall e hee
  unfold next_game_pred
  rcases hse with h1 | h1 <;> simp [h1]

/-- Concrete instance of C2: with one final event and one scheduled
event, the scheduled one is returned as first unplayed in order. -/
theorem c2_witness :
    find_next_game
        (some { events := some [sample_final_event (some (.val 28)) (some (.val 24)),
                                sample_next_event] }) =
      some sample_next_event :=
  by
    have hcomp : ∀ e ∈ [sample_final_event (some (.val 28)) (some (.val 24)),
        sample_next_event], e.competitions.getD [] ≠ [] := by decide
    rw [(c2_find_next_game_first_unplayed _ hcomp).1]
    decide

/-- Claim C3: every game in the completed-games output stems from an
event whose effective status is `STATUS_FINAL`, and an event with any
other status never contributes a game result. -/
theorem c3_completed_games_only_final :
    (∀ (our_team_id : Option String) (events : List Event) (g : GameResult),
      g ∈ extract_completed_games our_team_id events →
      ∃ e, e ∈ events ∧ event_status e = "STATUS_FINAL" ∧
        process_final_event our_team_id e = some g) ∧
    (∀ (our_team_id : Option String) (e : Event),
      event_status e ≠ "STATUS_FINAL" → process_final_event our_team_id e = none) := by
  constructor
  · intro our_team_id events g hg
    unfold extract_completed_games at hg
    rcases List.mem_filterMap.mp hg with ⟨e, he, hpe⟩
    exact ⟨e, he, process_final_event_status hpe, hpe⟩
  · intro our_team_id e hne
    cases hp : process_final_event our_team_id e with
    | none => rfl
    | some g => exact absurd (process_final_event_status hp) hne

/-- A completed 10-20 loss between the sample sides. -/
def c3_event : Event :=
  sample_final_event (some (.val 10)) (some (.val 20))

/-- The game result the C3 event extracts to. -/
def c3_result : GameResult :=
  { date := "Unknown", result := "L", our_score := 10, opp_score := 20,
    score := "10-20", opponent := "(UR) Opp", location := "vs" }

/-- Concrete instance of C3: the one result extracted from a one-event
schedule is traced back to a `STATUS_FINAL` event. -/
theorem c3_witness :
    ∃ e, e ∈ [c3_event] ∧ event_status e = "STATUS_FINAL" ∧
      process_final_event (some ("1")) e = some c3_result :=
  c3_completed_games_only_final.1 (some ("1")) [c3_event] c3_result (by decide)

end CFB
